import Mathlib

/-!
Verification of the EtherIP tunnel daemon (etherip-rs) against its
natural-language specification.

The Rust sources are shallowly embedded: fixed-size byte buffers become
`List Nat` (each element an octet value), machine integers become `Nat`,
fallible operations return `Except` or `Option`, and the effect of a raw
socket call is recorded in an explicit `SocketState` log.
-/

set_option autoImplicit false

namespace Etherip

/-! ## Constants from src/etherip.rs (lines 10-22) -/

def ETHERNET_MIN_MTU : Nat := 64
def ETHERNET_MAX_MTU : Nat := 9216
def ETHERNET_HEADER_SIZE : Nat := 14
def ETHERNET_CRC_SIZE : Nat := 4
def ETHERNET_MIN_FRAME_SIZE : Nat := ETHERNET_MIN_MTU + ETHERNET_HEADER_SIZE + ETHERNET_CRC_SIZE
def ETHERNET_MAX_FRAME_SIZE : Nat := ETHERNET_MAX_MTU + ETHERNET_HEADER_SIZE + ETHERNET_CRC_SIZE
def ETHERIP_HEADER_SIZE : Nat := 2
def ETHERIP_MIN_DATAGRAM_SIZE : Nat := ETHERNET_MIN_FRAME_SIZE + ETHERIP_HEADER_SIZE
def ETHERIP_MAX_DATAGRAM_SIZE : Nat := ETHERNET_MAX_FRAME_SIZE + ETHERIP_HEADER_SIZE

/-! ## EtherIP datagram parser (src/etherip.rs, `EtherIpParser<N>`)

`data` models the `[u8; N]` buffer; well-formed values have
`data.length = N`.  `datagram_length` is the received length
(`Ethernet frame length + 2` per the field comment). -/

structure EtherIpParser (N : Nat) where
  datagram_length : Nat
  data : List Nat
  deriving DecidableEq

/-- Embeds `EtherIpParser::parse_ethernet` (src/etherip.rs lines 60-70),
including its length test exactly as written in the source:
`len <= N && len >= ETHERIP_MAX_DATAGRAM_SIZE`.  `&self.data[2..len]`
becomes `(data.take len).drop 2`. -/
def parse_ethernet (N : Nat) (p : EtherIpParser N) : Option (List Nat) :=
  if p.data.getD 0 0 ≠ 0x30 ∨ p.data.getD 1 0 ≠ 0x00 then
    none
  else if p.datagram_length ≤ N ∧ ETHERIP_MAX_DATAGRAM_SIZE ≤ p.datagram_length then
    some ((p.data.take p.datagram_length).drop 2)
  else
    none

/-! ## EtherIP datagram builder (src/etherip.rs, `EtherIpBuilder<N>`) -/

structure EtherIpBuilder (N : Nat) where
  ether_frame_length : Nat
  data : List Nat
  deriving DecidableEq

/-- Embeds `EtherIpBuilder::new_zeroed` (src/etherip.rs lines 95-105):
zeroed buffer, then `data[0] = 0x30; data[1] = 0x00`. -/
def EtherIpBuilder.new_zeroed (N : Nat) : EtherIpBuilder N :=
  ⟨0, 0x30 :: 0x00 :: List.replicate (N - 2) 0⟩

/-- Embeds `EtherIpBuilder::build_etherip` (src/etherip.rs lines 115-122):
`len = ether_frame_length + 2`; returns `Some(&data[..len])` when
`len <= N && len >= ETHERIP_MIN_DATAGRAM_SIZE`, else `None`. -/
def build_etherip (N : Nat) (b : EtherIpBuilder N) : Option (List Nat) :=
  if b.ether_frame_length + 2 ≤ N ∧ ETHERIP_MIN_DATAGRAM_SIZE ≤ b.ether_frame_length + 2 then
    some (b.data.take (b.ether_frame_length + 2))
  else
    none

/-- Builder states reachable through the public API of `EtherIpBuilder<N>`:
either constructor (`new` leaves length and the bytes past the header
uninitialized, i.e. arbitrary, but both constructors assert
`N >= ETHERIP_MIN_DATAGRAM_SIZE` and write the 2-byte header), followed by
any number of mutations through `ethernet_mut`, which can overwrite only
`data[2..]` and the stored Ethernet length. -/
inductive BuilderReached (N : Nat) : EtherIpBuilder N → Prop where
  | new_uninit (l : Nat) (junk : List Nat) (hN : ETHERIP_MIN_DATAGRAM_SIZE ≤ N)
      (hj : junk.length + 2 = N) : BuilderReached N ⟨l, 0x30 :: 0x00 :: junk⟩
  | new_zeroed (hN : ETHERIP_MIN_DATAGRAM_SIZE ≤ N) :
      BuilderReached N (EtherIpBuilder.new_zeroed N)
  | ethernet_mut (b : EtherIpBuilder N) (hb : BuilderReached N b) (l : Nat) (tail : List Nat)
      (ht : tail.length + 2 = N) : BuilderReached N ⟨l, b.data.take 2 ++ tail⟩

/-- Every reachable builder has an intact 2-byte header and a buffer of
exactly `N` bytes, with `N` at least the minimum datagram size. -/
theorem builderReached_shape {N : Nat} {b : EtherIpBuilder N} (h : BuilderReached N b) :
    ETHERIP_MIN_DATAGRAM_SIZE ≤ N ∧
      ∃ rest, b.data = 0x30 :: 0x00 :: rest ∧ rest.length + 2 = N := by
  induction h with
  | new_uninit l junk hN hj => exact ⟨hN, junk, rfl, hj⟩
  | new_zeroed hN =>
    refine ⟨hN, List.replicate (N - 2) 0, rfl, ?_⟩
    have h2 : 2 ≤ N := le_trans (by decide) hN
    simp only [List.length_replicate]
    omega
  | ethernet_mut b hb l tail ht ih =>
    obtain ⟨hN, rest, hdata, hlen⟩ := ih
    refine ⟨hN, tail, ?_, ht⟩
    show b.data.take 2 ++ tail = 0x30 :: 0x00 :: tail
    rw [hdata]
    rfl

/-- Build-then-parse pipeline, as the daemon uses it (etheripd.rs):
write the Ethernet frame `e` into a builder's Ethernet region via
`ethernet_mut`, set the length to `|e|`, emit with `build_etherip`,
copy the emitted bytes and their count into a parser with buffer size `M`
(`recv_from` stores the received length), then `parse_ethernet`. -/
def buildThenParse (N M : Nat) (e : List Nat) : Option (List Nat) :=
  let b : EtherIpBuilder N := ⟨e.length, 0x30 :: 0x00 :: (e ++ List.replicate (N - 2 - e.length) 0)⟩
  match build_etherip N b with
  | none => none
  | some s => parse_ethernet M ⟨s.length, s ++ List.replicate (M - s.length) 0⟩

/-- C1: the claim states `parse_ethernet` returns `Some` for every received
length in `[ETHERIP_MIN_DATAGRAM_SIZE, N]` with a valid header, but the code
(src/etherip.rs line 65) tests `len >= ETHERIP_MAX_DATAGRAM_SIZE`.  A
minimal valid datagram — `N = 84`, valid `0x30 0x00` header, received
length `84 = ETHERIP_MIN_DATAGRAM_SIZE` — is rejected. -/
theorem C1_parse_ethernet_min_length_rejected :
    parse_ethernet 84 ⟨84, 0x30 :: 0x00 :: List.replicate 82 0xAB⟩ = none ∧
    (0x30 :: 0x00 :: List.replicate 82 0xAB : List Nat).getD 0 0 = 0x30 ∧
    (0x30 :: 0x00 :: List.replicate 82 0xAB : List Nat).getD 1 0 = 0x00 ∧
    (0x30 :: 0x00 :: List.replicate 82 0xAB : List Nat).length = 84 ∧
    ETHERIP_MIN_DATAGRAM_SIZE ≤ 84 ∧ 84 ≤ 84 := by
  decide

/-- C2: the round-trip claim fails on the code because of the same length
check: a minimum-size Ethernet frame (82 bytes) is built into a valid
84-byte datagram, but parsing it back yields `none` instead of the frame. -/
theorem C2_roundtrip_min_frame_fails :
    buildThenParse 84 84 (List.replicate 82 0xAB) = none ∧
    ETHERNET_MIN_FRAME_SIZE ≤ 82 ∧ 82 ≤ ETHERNET_MAX_FRAME_SIZE := by
  decide

/-- C3 counterexample: the constants do not equal the claimed values 80 and
9234. -/
theorem C3_constants_counterexample :
    ¬ (ETHERIP_MIN_DATAGRAM_SIZE = 80 ∧ ETHERIP_MAX_DATAGRAM_SIZE = 9234) := by
  decide

/-- C3 (amended): `ETHERIP_MIN_DATAGRAM_SIZE = 84` and
`ETHERIP_MAX_DATAGRAM_SIZE = 9236`, i.e. the minimum Ethernet frame of 82
bytes and the maximum of 9234 bytes, each plus the 2-byte EtherIP header;
the frame sizes are themselves derived as MTU + header + CRC. -/
theorem C3_constants_values :
    ETHERIP_MIN_DATAGRAM_SIZE = 84 ∧ ETHERIP_MAX_DATAGRAM_SIZE = 9236 ∧
    ETHERNET_MIN_FRAME_SIZE = 82 ∧ ETHERNET_MAX_FRAME_SIZE = 9234 ∧
    ETHERNET_MIN_FRAME_SIZE = ETHERNET_MIN_MTU + ETHERNET_HEADER_SIZE + ETHERNET_CRC_SIZE ∧
    ETHERNET_MAX_FRAME_SIZE = ETHERNET_MAX_MTU + ETHERNET_HEADER_SIZE + ETHERNET_CRC_SIZE ∧
    ETHERIP_MIN_DATAGRAM_SIZE = ETHERNET_MIN_FRAME_SIZE + ETHERIP_HEADER_SIZE ∧
    ETHERIP_MAX_DATAGRAM_SIZE = ETHERNET_MAX_FRAME_SIZE + ETHERIP_HEADER_SIZE := by
  decide

/-- C6: for every builder reachable through the constructors and
`ethernet_mut`, `build_etherip` succeeds exactly when
`ether_frame_length + 2` lies in `[ETHERIP_MIN_DATAGRAM_SIZE, N]`, and any
emitted datagram starts with the `0x30 0x00` header and has length
`ether_frame_length + 2`. -/
theorem C6_build_etherip_spec (N : Nat) (b : EtherIpBuilder N) (hb : BuilderReached N b) :
    ((∃ s, build_etherip N b = some s) ↔
      (ETHERIP_MIN_DATAGRAM_SIZE ≤ b.ether_frame_length + 2 ∧ b.ether_frame_length + 2 ≤ N)) ∧
    (∀ s, build_etherip N b = some s →
      s.getD 0 0 = 0x30 ∧ s.getD 1 0 = 0x00 ∧ s.length = b.ether_frame_length + 2) := by
  obtain ⟨hN, rest, hdata, hrest⟩ := builderReached_shape hb
  constructor
  · constructor
    · rintro ⟨s, hs⟩
      unfold build_etherip at hs
      by_cases h : b.ether_frame_length + 2 ≤ N ∧
          ETHERIP_MIN_DATAGRAM_SIZE ≤ b.ether_frame_length + 2
      · exact ⟨h.2, h.1⟩
      · rw [if_neg h] at hs
        exact absurd hs (by simp)
    · rintro ⟨h1, h2⟩
      exact ⟨b.data.take (b.ether_frame_length + 2), by unfold build_etherip; rw [if_pos ⟨h2, h1⟩]⟩
  · intro s hs
    unfold build_etherip at hs
    by_cases h : b.ether_frame_length + 2 ≤ N ∧
        ETHERIP_MIN_DATAGRAM_SIZE ≤ b.ether_frame_length + 2
    · rw [if_pos h] at hs
      have hsval : s = b.data.take (b.ether_frame_length + 2) := by
        exact (Option.some.injEq _ _ ▸ hs).symm
      subst hsval
      rw [hdata]
      refine ⟨rfl, rfl, ?_⟩
      rw [List.length_take]
      simp only [List.length_cons]
      exact inf_eq_left.mpr (by omega)
    · rw [if_neg h] at hs
      exact absurd hs (by simp)

/-- C6 witness: a concrete reachable builder with an 82-byte Ethernet frame
satisfies the specification, instantiated from the theorem. -/
theorem C6_build_etherip_spec_witness :
    BuilderReached 84 ⟨82, 0x30 :: 0x00 :: List.replicate 82 7⟩ ∧
    (((∃ s, build_etherip 84 (⟨82, 0x30 :: 0x00 :: List.replicate 82 7⟩ : EtherIpBuilder 84)
          = some s) ↔ (ETHERIP_MIN_DATAGRAM_SIZE ≤ 82 + 2 ∧ 82 + 2 ≤ 84)) ∧
      (∀ s, build_etherip 84 (⟨82, 0x30 :: 0x00 :: List.replicate 82 7⟩ : EtherIpBuilder 84)
          = some s → s.getD 0 0 = 0x30 ∧ s.getD 1 0 = 0x00 ∧ s.length = 82 + 2)) :=
  ⟨BuilderReached.new_uninit 82 (List.replicate 82 7) (by decide) (by decide),
   C6_build_etherip_spec 84 _ (BuilderReached.new_uninit 82 (List.replicate 82 7)
     (by decide) (by decide))⟩

/-! ## Address codec (src/socket.rs `RawIpv6Addr`, src/lib.rs
`to_ipv6_addr` / `from_ipv6_addr`)

`IpAddr` mirrors `std::net::IpAddr`: a V4 address is its four octets, a V6
address its sixteen octets. -/

inductive IpAddr where
  | V4 : Nat → Nat → Nat → Nat → IpAddr
  | V6 : List Nat → IpAddr
  deriving DecidableEq

/-- Well-formed addresses: octet values below 256, and sixteen of them for
V6 (mirroring `[u8; 16]`). -/
def IpAddr.wfb : IpAddr → Bool
  | .V4 a b c d => decide (a < 256 ∧ b < 256 ∧ c < 256 ∧ d < 256)
  | .V6 o => decide (o.length = 16 ∧ ∀ x ∈ o, x < 256)

/-- `Ipv4Addr::to_ipv6_mapped`: `a.b.c.d` becomes `::ffff:a.b.c.d`. -/
def to_ipv6_mapped (a b c d : Nat) : List Nat :=
  [0, 0, 0, 0, 0, 0, 0, 0, 0, 0, 0xff, 0xff, a, b, c, d]

/-- Embeds `From<IpAddr> for RawIpv6Addr` (src/socket.rs lines 35-44) and
`to_ipv6_addr` (src/lib.rs lines 32-37): v4 is mapped, v6 gives its
octets. -/
def to_raw_v6 : IpAddr → List Nat
  | .V4 a b c d => to_ipv6_mapped a b c d
  | .V6 o => o

/-- `Ipv6Addr::to_ipv4_mapped` succeeds exactly on `::ffff:0:0/96`,
i.e. octets `0 ×10, 0xff, 0xff` followed by the four v4 octets. -/
def isV4MappedOctets (o : List Nat) : Bool :=
  o.take 12 == [0, 0, 0, 0, 0, 0, 0, 0, 0, 0, 0xff, 0xff]

/-- Embeds `Into<IpAddr> for RawIpv6Addr` (src/socket.rs lines 46-54) and
`from_ipv6_addr` (src/lib.rs lines 40-45): a v4-mapped input collapses to
the v4 address, anything else stays v6. -/
def from_raw_v6 (o : List Nat) : IpAddr :=
  if isV4MappedOctets o then
    .V4 (o.getD 12 0) (o.getD 13 0) (o.getD 14 0) (o.getD 15 0)
  else
    .V6 o

/-- Whether an address is itself a v6 address inside `::ffff:0:0/96`. -/
def IpAddr.isV4MappedV6 : IpAddr → Bool
  | .V4 _ _ _ _ => false
  | .V6 o => isV4MappedOctets o

/-- C4 counterexample: the round trip is not the identity on all of
`IpAddr` — the well-formed v6 address `::ffff:1.2.3.4` comes back as the
v4 address `1.2.3.4`. -/
theorem C4_roundtrip_counterexample :
    from_raw_v6 (to_raw_v6 (.V6 [0, 0, 0, 0, 0, 0, 0, 0, 0, 0, 0xff, 0xff, 1, 2, 3, 4]))
        = .V4 1 2 3 4 ∧
    IpAddr.V4 1 2 3 4 ≠ .V6 [0, 0, 0, 0, 0, 0, 0, 0, 0, 0, 0xff, 0xff, 1, 2, 3, 4] ∧
    IpAddr.wfb (.V6 [0, 0, 0, 0, 0, 0, 0, 0, 0, 0, 0xff, 0xff, 1, 2, 3, 4]) = true := by
  decide

/-- C4 (amended): `from_raw_v6 (to_raw_v6 x) = x` for every well-formed
address that is not itself an IPv4-mapped v6 address (for those the round
trip instead yields the collapsed v4 address, as the counterexample
shows). -/
theorem C4_roundtrip (x : IpAddr) (hwf : x.wfb = true) (h : x.isV4MappedV6 = false) :
    from_raw_v6 (to_raw_v6 x) = x := by
  cases x with
  | V4 a b c d => rfl
  | V6 o =>
    simp only [IpAddr.isV4MappedV6] at h
    simp only [to_raw_v6, from_raw_v6, h, Bool.false_eq_true, if_false]

/-- C4 witness: the round trip fixes the v4 address `1.2.3.4`. -/
theorem C4_roundtrip_witness :
    from_raw_v6 (to_raw_v6 (.V4 1 2 3 4)) = IpAddr.V4 1 2 3 4 :=
  C4_roundtrip (.V4 1 2 3 4) (by decide) (by decide)

/-! ## DNS refresher commit (src/bin/etheripd.rs lines 217-243)

`InterfaceState` keeps the cached remote address and the link's TAP
handle (TAP handles are modeled by numeric identities).  The remote map
`HashMap<IpAddr, Arc<Tap>>` is modeled as a partial function; `tokio`'s
interleavings cannot observe a map between the two writes of the critical
section, so the section is embedded as the ordered list of map states it
passes through, plus the resulting state. -/

structure InterfaceState where
  remote_addr : Option IpAddr
  tap : Nat
  deriving DecidableEq

def RemoteMap : Type := IpAddr → Option Nat

/-- `HashMap::insert`: the key now maps to the value, other keys are
unchanged. -/
def mapInsert (m : RemoteMap) (k : IpAddr) (v : Nat) : RemoteMap :=
  fun x => if x = k then some v else m x

/-- `HashMap::remove`: the key is gone, other keys are unchanged. -/
def mapRemove (m : RemoteMap) (k : IpAddr) : RemoteMap :=
  fun x => if x = k then none else m x

/-- The ordered sequence of remote-map states inside the refresher's
write-lock critical section, starting from the state right after the
`insert` (the code inserts `(new, tap)` first, and removes the old address
afterwards only when there was one). -/
def refresherMapStates (m : RemoteMap) (old : Option IpAddr) (next : IpAddr) (tap : Nat) :
    List RemoteMap :=
  match old with
  | some o => [mapInsert m next tap, mapRemove (mapInsert m next tap) o]
  | none => [mapInsert m next tap]

/-- Embeds the refresher's successful-resolution branch
(src/bin/etheripd.rs lines 222-232): when the resolved address differs
from the cached one, write it into the interface state, then — under one
write lock — insert `(new, tap)` and remove the old address if any. -/
def refresherCommit (st : InterfaceState) (m : RemoteMap) (next : IpAddr) :
    InterfaceState × RemoteMap :=
  if st.remote_addr = some next then
    (st, m)
  else
    (⟨some next, st.tap⟩,
     match st.remote_addr with
     | some o => mapRemove (mapInsert m next st.tap) o
     | none => mapInsert m next st.tap)

/-- C5: after the refresher commits a change to a differing address `next`,
the interface state holds `next`; the remote map maps `next` to the link's
TAP and no longer contains the old address; and the committed map is the
last state of the insert-first critical section, every state of which
already maps `next` to the TAP (the peer is never briefly unmapped). -/
theorem C5_refresher_commit (st : InterfaceState) (m : RemoteMap) (next : IpAddr)
    (hchange : st.remote_addr ≠ some next) :
    (refresherCommit st m next).1.remote_addr = some next ∧
    (refresherCommit st m next).2 next = some st.tap ∧
    (∀ o, st.remote_addr = some o → (refresherCommit st m next).2 o = none) ∧
    (refresherMapStates m st.remote_addr next st.tap).getLast? = some (refresherCommit st m next).2 ∧
    (∀ mi ∈ refresherMapStates m st.remote_addr next st.tap, mi next = some st.tap) := by
  obtain ⟨oldAddr, tp⟩ := st
  have hins : mapInsert m next tp next = some tp := by
    unfold mapInsert
    rw [if_pos rfl]
  cases oldAddr with
  | none =>
    have hc : refresherCommit ⟨none, tp⟩ m next = (⟨some next, tp⟩, mapInsert m next tp) := by
      unfold refresherCommit
      rw [if_neg hchange]
    rw [hc]
    refine ⟨rfl, hins, ?_, ?_, ?_⟩
    · intro o ho
      exact Option.noConfusion ho
    · simp [refresherMapStates]
    · intro mi hmi
      simp only [refresherMapStates, List.mem_singleton] at hmi
      rw [hmi]
      exact hins
  | some o =>
    have hne : next ≠ o := fun he => hchange (by show some o = some next; rw [he])
    have hrem : mapRemove (mapInsert m next tp) o next = some tp := by
      unfold mapRemove
      rw [if_neg hne]
      exact hins
    have hc : refresherCommit ⟨some o, tp⟩ m next
        = (⟨some next, tp⟩, mapRemove (mapInsert m next tp) o) := by
      unfold refresherCommit
      rw [if_neg hchange]
    rw [hc]
    refine ⟨rfl, hrem, ?_, ?_, ?_⟩
    · intro o2 ho2
      have ho2e : o = o2 := Option.some.inj ho2
      subst ho2e
      show mapRemove (mapInsert m next tp) o o = none
      unfold mapRemove
      rw [if_pos rfl]
    · simp [refresherMapStates]
    · intro mi hmi
      simp only [refresherMapStates, List.mem_cons, List.mem_singleton,
        List.not_mem_nil, or_false] at hmi
      cases hmi with
      | inl h1 => rw [h1]; exact hins
      | inr h2 => rw [h2]; exact hrem

/-- C5 witness: a concrete commit, old address `9.9.9.9` changing to
`1.1.1.1` on the link with TAP identity 5. -/
theorem C5_refresher_commit_witness :
    (InterfaceState.mk (some (IpAddr.V4 9 9 9 9)) 5).remote_addr ≠ some (IpAddr.V4 1 1 1 1) ∧
    ((refresherCommit ⟨some (IpAddr.V4 9 9 9 9), 5⟩ (fun _ => none) (IpAddr.V4 1 1 1 1)).1.remote_addr
        = some (IpAddr.V4 1 1 1 1) ∧
      (refresherCommit ⟨some (IpAddr.V4 9 9 9 9), 5⟩ (fun _ => none) (IpAddr.V4 1 1 1 1)).2
          (IpAddr.V4 1 1 1 1) = some 5 ∧
      (∀ o, (InterfaceState.mk (some (IpAddr.V4 9 9 9 9)) 5).remote_addr = some o →
        (refresherCommit ⟨some (IpAddr.V4 9 9 9 9), 5⟩ (fun _ => none) (IpAddr.V4 1 1 1 1)).2 o
          = none) ∧
      (refresherMapStates (fun _ => none) (some (IpAddr.V4 9 9 9 9)) (IpAddr.V4 1 1 1 1) 5).getLast?
        = some (refresherCommit ⟨some (IpAddr.V4 9 9 9 9), 5⟩ (fun _ => none) (IpAddr.V4 1 1 1 1)).2 ∧
      (∀ mi ∈ refresherMapStates (fun _ => none) (some (IpAddr.V4 9 9 9 9)) (IpAddr.V4 1 1 1 1) 5,
        mi (IpAddr.V4 1 1 1 1) = some 5)) :=
  ⟨by decide,
   C5_refresher_commit ⟨some (IpAddr.V4 9 9 9 9), 5⟩ (fun _ => none) (IpAddr.V4 1 1 1 1)
     (by decide)⟩

/-! ## EtherIP sockets (src/etherip.rs `EtherIpSocket`,
`BlockingEtherIpSocket`; src/lib.rs `EtherIpSocket`)

The underlying raw socket is modeled by a log of the `sendto(2)` calls it
performed; a send that never reaches the raw socket leaves the log — and
with it the whole socket state — untouched. -/

inductive ErrorKind where
  | invalidInput
  | invalidData
  deriving DecidableEq

structure SocketState where
  sent : List (List Nat × IpAddr)
  deriving DecidableEq

/-- One raw `send_to` on the underlying socket: the datagram is recorded
and its length returned (the kernel accepting the full buffer). -/
def rawSendTo (s : SocketState) (buf : List Nat) (addr : IpAddr) : SocketState × Nat :=
  (⟨s.sent ++ [(buf, addr)]⟩, buf.length)

/-- Embeds the async `EtherIpSocket::send_to` (src/etherip.rs lines
158-164): `build_etherip` first; on `None` an `InvalidInput` error with no
raw-socket call. -/
def EtherIpSocket.send_to (N : Nat) (s : SocketState) (b : EtherIpBuilder N) (addr : IpAddr) :
    Except ErrorKind Nat × SocketState :=
  match build_etherip N b with
  | some d => (Except.ok (rawSendTo s d addr).2, (rawSendTo s d addr).1)
  | none => (Except.error ErrorKind.invalidInput, s)

/-- Embeds the blocking `BlockingEtherIpSocket::send_to` (src/etherip.rs
lines 205-211), same logic as the async variant. -/
def BlockingEtherIpSocket.send_to (N : Nat) (s : SocketState) (b : EtherIpBuilder N)
    (addr : IpAddr) : Except ErrorKind Nat × SocketState :=
  match build_etherip N b with
  | some d => (Except.ok (rawSendTo s d addr).2, (rawSendTo s d addr).1)
  | none => (Except.error ErrorKind.invalidInput, s)

/-- Embeds `EtherIpDatagram` (src/lib.rs lines 330-337): a 65536-byte
buffer plus the datagram length. -/
structure EtherIpDatagram where
  len : Nat
  data : List Nat
  deriving DecidableEq

/-- Embeds `EtherIpDatagram::datagram` (src/lib.rs lines 374-385):
validate length bounds and the `0x30 0x00` header, returning
`data[..len]`. -/
def EtherIpDatagram.datagram (d : EtherIpDatagram) : Option (List Nat) :=
  if d.data.length < d.len then none
  else if d.len < 2 then none
  else if d.data.getD 0 0 ≠ 0x30 ∨ d.data.getD 1 0 ≠ 0x00 then none
  else some (d.data.take d.len)

/-- Embeds the older `EtherIpSocket::send_to` of src/lib.rs (lines
319-326): validates via `EtherIpDatagram::datagram` and returns an
`InvalidData` error — not `InvalidInput` — when validation fails. -/
def LibEtherIpSocket.send_to (s : SocketState) (d : EtherIpDatagram) (addr : IpAddr) :
    Except ErrorKind Nat × SocketState :=
  match d.datagram with
  | some buf => (Except.ok (rawSendTo s buf addr).2, (rawSendTo s buf addr).1)
  | none => (Except.error ErrorKind.invalidData, s)

/-- Validation failure makes the src/lib.rs `send_to` return `InvalidData`
and leave the socket untouched. -/
theorem libSendToOfNone (s : SocketState) (d : EtherIpDatagram) (addr : IpAddr)
    (hd : d.datagram = none) :
    LibEtherIpSocket.send_to s d addr = (Except.error ErrorKind.invalidData, s) := by
  unfold LibEtherIpSocket.send_to
  rw [hd]

/-- C7 counterexample: the src/lib.rs `EtherIpSocket::send_to` — one of
the claim's cited embodiments — returns an `InvalidData` error, not
`InvalidInput`, on an invalid datagram (here: stored length 1 < 2). -/
theorem C7_lib_send_to_invalid_data :
    EtherIpDatagram.datagram ⟨1, List.replicate 65536 0⟩ = none ∧
    LibEtherIpSocket.send_to ⟨[]⟩ ⟨1, List.replicate 65536 0⟩ (IpAddr.V4 10 0 0 2)
      = (Except.error ErrorKind.invalidData, ⟨[]⟩) ∧
    ErrorKind.invalidData ≠ ErrorKind.invalidInput := by
  have hd : EtherIpDatagram.datagram ⟨1, List.replicate 65536 0⟩ = none := by
    unfold EtherIpDatagram.datagram
    have hnl : ¬((⟨1, List.replicate 65536 0⟩ : EtherIpDatagram).data.length
        < (⟨1, List.replicate 65536 0⟩ : EtherIpDatagram).len) := by
      show ¬((List.replicate 65536 (0 : Nat)).length < 1)
      rw [List.length_replicate]
      decide
    rw [if_neg hnl, if_pos (by decide)]
  exact ⟨hd, libSendToOfNone _ _ _ hd, by decide⟩

/-- C7 (amended): when the codec rejects the buffer, the async and the
blocking `send_to` of src/etherip.rs both return an `InvalidInput` error,
and the src/lib.rs `send_to` returns an `InvalidData` error; all three
leave the raw socket untouched. -/
theorem C7_send_to_error_no_send (N : Nat) (s : SocketState) (b : EtherIpBuilder N)
    (addr : IpAddr) (d : EtherIpDatagram)
    (hb : build_etherip N b = none) (hd : d.datagram = none) :
    EtherIpSocket.send_to N s b addr = (Except.error ErrorKind.invalidInput, s) ∧
    BlockingEtherIpSocket.send_to N s b addr = (Except.error ErrorKind.invalidInput, s) ∧
    LibEtherIpSocket.send_to s d addr = (Except.error ErrorKind.invalidData, s) := by
  unfold EtherIpSocket.send_to BlockingEtherIpSocket.send_to LibEtherIpSocket.send_to
  rw [hb, hd]
  exact ⟨rfl, rfl, rfl⟩

/-- C7 witness: a builder with a 0-length Ethernet frame (datagram length
2, below the minimum) and a datagram with stored length 1. -/
theorem C7_send_to_error_no_send_witness :
    build_etherip 84 (⟨0, 0x30 :: 0x00 :: List.replicate 82 0⟩ : EtherIpBuilder 84) = none ∧
    EtherIpDatagram.datagram ⟨1, []⟩ = none ∧
    (EtherIpSocket.send_to 84 ⟨[]⟩ ⟨0, 0x30 :: 0x00 :: List.replicate 82 0⟩ (IpAddr.V4 10 0 0 2)
        = (Except.error ErrorKind.invalidInput, ⟨[]⟩) ∧
      BlockingEtherIpSocket.send_to 84 ⟨[]⟩ ⟨0, 0x30 :: 0x00 :: List.replicate 82 0⟩
          (IpAddr.V4 10 0 0 2) = (Except.error ErrorKind.invalidInput, ⟨[]⟩) ∧
      LibEtherIpSocket.send_to ⟨[]⟩ ⟨1, []⟩ (IpAddr.V4 10 0 0 2)
        = (Except.error ErrorKind.invalidData, ⟨[]⟩)) :=
  ⟨by decide, by decide,
   C7_send_to_error_no_send 84 ⟨[]⟩ ⟨0, 0x30 :: 0x00 :: List.replicate 82 0⟩
     (IpAddr.V4 10 0 0 2) ⟨1, []⟩ (by decide) (by decide)⟩

/-! ## Configuration & resolver (src/config.rs) -/

inductive IpVersion where
  | V4
  | V6
  deriving DecidableEq

/-- `IpAddr::is_ipv4` / `SocketAddr::is_ipv4`. -/
def IpAddr.is_ipv4 : IpAddr → Bool
  | .V4 _ _ _ _ => true
  | .V6 _ => false

/-- `IpAddr::is_ipv6` / `SocketAddr::is_ipv6`. -/
def IpAddr.is_ipv6 : IpAddr → Bool
  | .V4 _ _ _ _ => false
  | .V6 _ => true

/-- The per-version filter of the `for` loop in `lookup_addr`. -/
def versionMatches (v : IpVersion) (a : IpAddr) : Bool :=
  match v with
  | .V4 => a.is_ipv4
  | .V6 => a.is_ipv6

/-- Embeds `lookup_addr` (src/config.rs lines 120-141).  `parsed` is the
outcome of `addr.parse::<IpAddr>()`; `resolved` the outcome of
`tokio::net::lookup_host` on `addr:0` (its addresses in order).  The loop
returns the first address of the requested version, else `InvalidInput`;
a literal IP short-circuits before any resolution. -/
def lookup_addr (parsed : Option IpAddr) (resolved : Except ErrorKind (List IpAddr))
    (ip_version : IpVersion) : Except ErrorKind IpAddr :=
  match parsed with
  | some ip => Except.ok ip
  | none =>
    match resolved with
    | Except.error e => Except.error e
    | Except.ok addrs =>
      match addrs.find? (fun a => versionMatches ip_version a) with
      | some a => Except.ok a
      | none => Except.error ErrorKind.invalidInput

/-- C8: a literal IP is returned unchanged whatever the resolver would
say (no resolution is performed); otherwise the first resolved address of
the requested version is returned, and if none matches the result is an
`InvalidInput` error. -/
theorem C8_lookup_addr_spec (v : IpVersion) :
    (∀ (ip : IpAddr) (r : Except ErrorKind (List IpAddr)),
      lookup_addr (some ip) r v = Except.ok ip) ∧
    (∀ (addrs : List IpAddr) (a : IpAddr),
      addrs.find? (fun x => versionMatches v x) = some a →
      lookup_addr none (Except.ok addrs) v = Except.ok a) ∧
    (∀ addrs : List IpAddr,
      addrs.find? (fun x => versionMatches v x) = none →
      lookup_addr none (Except.ok addrs) v = Except.error ErrorKind.invalidInput) := by
  refine ⟨fun ip r => rfl, fun addrs a ha => ?_, fun addrs ha => ?_⟩
  · show (match addrs.find? (fun x => versionMatches v x) with
        | some a => Except.ok a
        | none => Except.error ErrorKind.invalidInput) = Except.ok a
    rw [ha]
  · show (match addrs.find? (fun x => versionMatches v x) with
        | some a => Except.ok a
        | none => Except.error ErrorKind.invalidInput) = Except.error ErrorKind.invalidInput
    rw [ha]

/-- C8 witness: a V4 literal bypasses a failing resolver; a V4 query skips
a leading V6 record and picks the first V4 one; a V6-only answer to a V4
query is rejected as `InvalidInput`. -/
theorem C8_lookup_addr_spec_witness :
    lookup_addr (some (IpAddr.V4 1 2 3 4)) (Except.error ErrorKind.invalidData) IpVersion.V4
      = Except.ok (IpAddr.V4 1 2 3 4) ∧
    lookup_addr none (Except.ok [IpAddr.V6 (List.replicate 16 0), IpAddr.V4 9 9 9 9])
        IpVersion.V4 = Except.ok (IpAddr.V4 9 9 9 9) ∧
    lookup_addr none (Except.ok [IpAddr.V6 (List.replicate 16 0)]) IpVersion.V4
      = Except.error ErrorKind.invalidInput :=
  ⟨(C8_lookup_addr_spec IpVersion.V4).1 (IpAddr.V4 1 2 3 4) (Except.error ErrorKind.invalidData),
   (C8_lookup_addr_spec IpVersion.V4).2.1 [IpAddr.V6 (List.replicate 16 0), IpAddr.V4 9 9 9 9]
     (IpAddr.V4 9 9 9 9) (by decide),
   (C8_lookup_addr_spec IpVersion.V4).2.2 [IpAddr.V6 (List.replicate 16 0)] (by decide)⟩

/-! ## TAP interface-name validation (src/tap.rs `ifname_to_cstring`)

Interface names are modeled as their UTF-8 byte sequences: `str::len` is
the byte count, and the rejected characters and NUL are all ASCII, so the
`contains` checks coincide with byte-level scans. -/

def IFNAMSIZ : Nat := 16

/-- The characters rejected by `ifname_to_cstring`:
`/`, space, form feed, newline, carriage return, tab, vertical tab. -/
def forbidden_ifname_byte (b : Nat) : Bool :=
  b == 47 || b == 32 || b == 12 || b == 10 || b == 13 || b == 9 || b == 11

/-- Embeds `ifname_to_cstring` (src/tap.rs lines 20-30): reject length
`>= IFNAMSIZ` or `0`, then any forbidden character, then any NUL byte
(`CString::new` fails on interior NUL); each rejection is `InvalidInput`.
Success yields the validated bytes. -/
def ifname_to_cstring (s : List Nat) : Except ErrorKind (List Nat) :=
  if IFNAMSIZ ≤ s.length ∨ s.length = 0 then Except.error ErrorKind.invalidInput
  else if s.any forbidden_ifname_byte then Except.error ErrorKind.invalidInput
  else if s.any (fun b => b == 0) then Except.error ErrorKind.invalidInput
  else Except.ok s

/-- `tap_add_ioctl` (src/tap.rs lines 33-61) validates its interface name
by calling `ifname_to_cstring` first. -/
def tap_add_ioctl_validation (s : List Nat) : Except ErrorKind (List Nat) :=
  ifname_to_cstring s

/-- `tap_del_ioctl` (src/tap.rs lines 64-92) validates its interface name
by calling `ifname_to_cstring` first. -/
def tap_del_ioctl_validation (s : List Nat) : Except ErrorKind (List Nat) :=
  ifname_to_cstring s

/-- `RawTap::new` — the TAP open path (src/tap.rs lines 102-129) —
validates its interface name by calling `ifname_to_cstring` first. -/
def raw_tap_new_validation (s : List Nat) : Except ErrorKind (List Nat) :=
  ifname_to_cstring s

/-- The acceptance condition of the claim: length in `[1, IFNAMSIZ)` and
no forbidden character and no embedded NUL. -/
def valid_ifname (s : List Nat) : Prop :=
  1 ≤ s.length ∧ s.length < IFNAMSIZ ∧
    ∀ b ∈ s, forbidden_ifname_byte b = false ∧ b ≠ 0

instance (s : List Nat) : Decidable (valid_ifname s) := by
  unfold valid_ifname
  infer_instance

/-- C9: the validation shared by `tap_add_ioctl`, `tap_del_ioctl` and the
TAP open accepts exactly the names of length `[1, IFNAMSIZ)` free of the
forbidden characters and of NUL, and every violation is an `InvalidInput`
error. -/
theorem C9_ifname_validation (s : List Nat) :
    (ifname_to_cstring s = Except.ok s ↔ valid_ifname s) ∧
    (¬ valid_ifname s → ifname_to_cstring s = Except.error ErrorKind.invalidInput) ∧
    tap_add_ioctl_validation s = ifname_to_cstring s ∧
    tap_del_ioctl_validation s = ifname_to_cstring s ∧
    raw_tap_new_validation s = ifname_to_cstring s := by
  have hchar : (ifname_to_cstring s = Except.ok s ↔ valid_ifname s) := by
    unfold ifname_to_cstring valid_ifname
    constructor
    · intro h
      by_cases h1 : IFNAMSIZ ≤ s.length ∨ s.length = 0
      · rw [if_pos h1] at h
        exact absurd h (by simp)
      · rw [if_neg h1] at h
        by_cases h2 : s.any forbidden_ifname_byte
        · rw [if_pos h2] at h
          exact absurd h (by simp)
        · rw [if_neg h2] at h
          by_cases h3 : s.any (fun b => b == 0)
          · rw [if_pos h3] at h
            exact absurd h (by simp)
          · push_neg at h1
            rw [Bool.not_eq_true, List.any_eq_false] at h2 h3
            refine ⟨by omega, by omega, fun b hb => ⟨?_, ?_⟩⟩
            · have hb2 := h2 b hb
              simpa using hb2
            · have hb3 := h3 b hb
              simpa using hb3
    · rintro ⟨hl1, hl2, hb⟩
      have h1 : ¬ (IFNAMSIZ ≤ s.length ∨ s.length = 0) := by omega
      have h2 : s.any forbidden_ifname_byte = false := by
        rw [List.any_eq_false]
        intro b hbm
        simp [(hb b hbm).1]
      have h3 : s.any (fun b => b == 0) = false := by
        rw [List.any_eq_false]
        intro b hbm
        simpa using (hb b hbm).2
      rw [if_neg h1, if_neg (by simp [h2]), if_neg (by simp [h3])]
  refine ⟨hchar, ?_, rfl, rfl, rfl⟩
  intro hinv
  unfold ifname_to_cstring
  by_cases h1 : IFNAMSIZ ≤ s.length ∨ s.length = 0
  · rw [if_pos h1]
  · rw [if_neg h1]
    by_cases h2 : s.any forbidden_ifname_byte
    · rw [if_pos h2]
    · rw [if_neg h2]
      by_cases h3 : s.any (fun b => b == 0)
      · rw [if_pos h3]
      · exfalso
        apply hinv
        apply hchar.mp
        unfold ifname_to_cstring
        rw [if_neg h1, if_neg h2, if_neg h3]

/-- C9 witness: the single-byte name "a" (0x61) is accepted; the name "/"
(0x2f) is rejected with `InvalidInput`. -/
theorem C9_ifname_validation_witness :
    (ifname_to_cstring [0x61] = Except.ok [0x61] ↔ valid_ifname [0x61]) ∧
    (¬ valid_ifname [0x2f] →
      ifname_to_cstring [0x2f] = Except.error ErrorKind.invalidInput) ∧
    ¬ valid_ifname [0x2f] ∧ valid_ifname [0x61] :=
  ⟨(C9_ifname_validation [0x61]).1, (C9_ifname_validation [0x2f]).2.1, by decide, by decide⟩

/-! ## `AddrString::update_ip_addr` (src/config.rs lines 170-182)

`now` is the current time in whole seconds (so `t.elapsed().as_secs()`
becomes `now - t`), and the DNS lookup is an oracle argument.  The third
component of the result records whether a lookup was performed. -/

structure AddrString where
  is_static_ip_addr : Bool
  ip_addr : Option IpAddr
  previous_update : Option Nat
  deriving DecidableEq

/-- Embeds `AddrString::update_ip_addr`: a static IP returns at once; a
cached dynamic address younger than 60 seconds returns unchanged; only
otherwise is `lookup_addr` consulted, updating the cache and timestamp on
success and propagating the error (cache untouched) on failure. -/
def AddrString.update_ip_addr (st : AddrString) (now : Nat)
    (lookupResult : Except ErrorKind IpAddr) :
    Except ErrorKind Unit × AddrString × Bool :=
  if st.is_static_ip_addr then
    (Except.ok (), st, false)
  else if st.ip_addr.isSome && (match st.previous_update with
      | some t => decide (now - t < 60)
      | none => false) then
    (Except.ok (), st, false)
  else
    match lookupResult with
    | Except.ok ip => (Except.ok (), ⟨st.is_static_ip_addr, some ip, some now⟩, true)
    | Except.error e => (Except.error e, st, true)

/-- C10: `update_ip_addr` performs no lookup and returns `Ok` with the
state unchanged when the address is a static IP literal, and likewise for
a dynamic name whose cached address exists and whose last successful
update is less than 60 seconds old. -/
theorem C10_update_ip_addr_skip (st : AddrString) (now : Nat)
    (r : Except ErrorKind IpAddr) :
    (st.is_static_ip_addr = true → st.update_ip_addr now r = (Except.ok (), st, false)) ∧
    (∀ a t, st.is_static_ip_addr = false → st.ip_addr = some a →
      st.previous_update = some t → now - t < 60 →
      st.update_ip_addr now r = (Except.ok (), st, false)) := by
  constructor
  · intro hs
    unfold AddrString.update_ip_addr
    rw [if_pos hs]
  · intro a t hs ha ht hlt
    unfold AddrString.update_ip_addr
    rw [if_neg (by rw [hs]; exact Bool.false_ne_true)]
    rw [if_pos ?hcond]
    case hcond =>
      rw [ha, ht]
      simp [hlt]

/-- C10 witness: a static entry is returned untouched, and a dynamic
entry cached 30 seconds ago (updated at t=100, now=130) is returned
untouched, with no lookup in either case. -/
theorem C10_update_ip_addr_skip_witness :
    (AddrString.update_ip_addr ⟨true, some (IpAddr.V4 1 2 3 4), none⟩ 130
        (Except.error ErrorKind.invalidInput)
      = (Except.ok (), ⟨true, some (IpAddr.V4 1 2 3 4), none⟩, false)) ∧
    (AddrString.update_ip_addr ⟨false, some (IpAddr.V4 1 2 3 4), some 100⟩ 130
        (Except.error ErrorKind.invalidInput)
      = (Except.ok (), ⟨false, some (IpAddr.V4 1 2 3 4), some 100⟩, false)) :=
  ⟨(C10_update_ip_addr_skip ⟨true, some (IpAddr.V4 1 2 3 4), none⟩ 130
      (Except.error ErrorKind.invalidInput)).1 rfl,
   (C10_update_ip_addr_skip ⟨false, some (IpAddr.V4 1 2 3 4), some 100⟩ 130
      (Except.error ErrorKind.invalidInput)).2 (IpAddr.V4 1 2 3 4) 100 rfl rfl rfl
      (by decide)⟩

end Etherip
